import Mathlib

/-!
Verification of the IDAPython bridge core (python.cpp): execution control
(begin_execution / end_execution / break_check), the name resolver
(parse_py_modname), the value-return helper (return_python_result), the
external-language adapter entries (run / call_method / get_attr) and the
CLI line heuristic (IDAPython_cli_execute_line), shallowly embedded in Lean.
-/

namespace IDAPython

/-! ## Conversion outcome sentinels

Modelled from the spec: the conversion tri-state of the value bridge
(pywraps.hpp is not part of this translation unit).  The spec's
*failed* / *converted-with-new-reference* / *converted-borrowing* map to
`CIP_FAILED` / `CIP_OK` / `CIP_OK_NODECREF`; the comparisons in
`return_python_result` (`cvt < CIP_OK`, `cvt >= CIP_OK`,
`cvt != CIP_OK_NODECREF`) fix the ordering, with `CIP_IMMUTABLE` the
further non-error code used by the attribute setters. -/

def CIP_FAILED : Int := -1

def CIP_IMMUTABLE : Int := 0

def CIP_OK : Int := 1

def CIP_OK_NODECREF : Int := 2

/-! ## Execution control (python.cpp lines 121-231)

The globals `ninsns`, `box_displayed`, `start_time`, `script_timeout`,
`g_ui_ready`, together with the installed trace hook and the pending
`PyErr_SetInterrupt` flag, become one explicit state record.  The
counters `shows` / `hides` record how many times `show_wait_box` /
`hide_wait_box` were invoked; they are observation-only and alter no
branch of the translated control flow. -/

structure ExecState where
  ninsns : Int
  box_displayed : Bool
  start_time : Int
  script_timeout : Int
  g_ui_ready : Bool
  trace_installed : Bool
  pending_interrupt : Bool
  shows : Nat
  hides : Nat
deriving DecidableEq

/-- `show_wait_box("Running Python script")`: observable event counter. -/
def show_wait_box (s : ExecState) : ExecState :=
  { s with shows := s.shows + 1 }

/-- `hide_wait_box()`: observable event counter. -/
def hide_wait_box (s : ExecState) : ExecState :=
  { s with hides := s.hides + 1 }

/-- `break_check(obj, frame, what, arg)` from python.cpp lines 137-165.
`cancelled` is the value returned by `wasBreak()`, `now` the value of
`time(NULL)` at this invocation.  The C condition
`!box_displayed && ++ninsns > 10` increments `ninsns` whenever
`box_displayed` is false (short-circuit evaluation), and only then
compares the incremented counter against 10; the increment is written
here as `s.ninsns + 1` in both the comparison and the stored value, and
the body's `ninsns = 0` overwrites it on the over-threshold branch. -/
def break_check (cancelled : Bool) (now : Int) (s : ExecState) : ExecState :=
  if cancelled then
    { s with pending_interrupt := true }
  else if s.box_displayed then
    s
  else if s.ninsns + 1 > 10 then
    if s.script_timeout ≠ 0 ∧ now - s.start_time > s.script_timeout then
      show_wait_box { s with ninsns := 0, box_displayed := true }
    else
      { s with ninsns := 0 }
  else
    { s with ninsns := s.ninsns + 1 }

/-- `reset_execution_time()` from python.cpp lines 168-172. -/
def reset_execution_time (now : Int) (s : ExecState) : ExecState :=
  { s with start_time := now, ninsns := 0 }

/-- `hide_script_waitbox()` from python.cpp lines 187-194. -/
def hide_script_waitbox (s : ExecState) : ExecState :=
  if s.box_displayed then
    { hide_wait_box s with box_displayed := false }
  else
    s

/-- `end_execution()` from python.cpp lines 198-206: hides the wait box if
shown and uninstalls the trace hook (`PyEval_SetTrace(NULL, NULL)`). -/
def end_execution (s : ExecState) : ExecState :=
  { hide_script_waitbox s with trace_installed := false }

/-- `begin_execution()` from python.cpp lines 176-184: no-op unless the UI
is ready and a nonzero timeout is configured; otherwise runs
`end_execution()`, resets the clock and counter, and installs the
`break_check` trace hook. -/
def begin_execution (now : Int) (s : ExecState) : ExecState :=
  if s.g_ui_ready = false ∨ s.script_timeout = 0 then
    s
  else
    { reset_execution_time now (end_execution s) with trace_installed := true }

/-- A sequence of `break_check` invocations (one execution window's trace
of hook callbacks), each with its own `wasBreak` answer and clock value. -/
def runChecks (l : List (Bool × Int)) (s : ExecState) : ExecState :=
  l.foldl (fun s ci => break_check ci.1 ci.2 s) s

/-! ## Name resolver (python.cpp lines 566-585)

`parse_py_modname` is translated on `List Char`; `strchr(full_name, '.')`
becomes a split at the first `'.'`.  Buffer truncation (`qstrncpy` with
`sz`) is outside the claims, which quantify over names that fit the
buffers, so strings are unbounded here; the `qstrncpy(modname, full_name,
p - full_name + 1)` call copies exactly the prefix before the dot. -/

def split_at_first_dot : List Char → Option (List Char × List Char)
  | [] => none
  | c :: cs =>
    if c = '.' then
      some ([], cs)
    else
      match split_at_first_dot cs with
      | none => none
      | some (m, a) => some (c :: m, a)

/-- `parse_py_modname(full_name, modname, attrname, sz, defmod)`:
returns (modname, attrname, found-a-dot).  The default module argument
`defmod` is `S_IDAAPI_MODNAME` ("idaapi") at every call site that omits it. -/
def parse_py_modname (full_name : List Char) (defmod : List Char) :
    List Char × List Char × Bool :=
  match split_at_first_dot full_name with
  | none => (defmod, full_name, false)
  | some (m, a) => (m, a, true)

/-- String-level wrapper used by the adapter entries. -/
def parse_py_modnameS (full_name : String) (defmod : String) :
    String × String × Bool :=
  match parse_py_modname full_name.data defmod.data with
  | (m, a, b) => (String.mk m, String.mk a, b)

/-- The spec's resolver, written from its words (spec section 4.4):
`resolve(qualifiedName, defaultModule)` splits at the first separator
character — module is the text before the first `'.'`, the leaf is
everything after it — and falls back to the default module when no
separator is present; stated for comparison with the
source-translated `parse_py_modname`. -/
def resolve_spec (qualifiedName defaultModule : List Char) :
    List Char × List Char × Bool :=
  if '.' ∈ qualifiedName then
    (qualifiedName.takeWhile (fun c => c ≠ '.'),
     (qualifiedName.dropWhile (fun c => c ≠ '.')).tail, true)
  else
    (defaultModule, qualifiedName, false)

/-! ## return_python_result (python.cpp lines 590-618)

`py_result_null` is whether the `PyObject *py_result` argument is NULL,
`idc_result_present` whether the `idc_value_t *idc_result` out-parameter
is non-NULL, `cvt` the outcome `pyvar_to_idcvar(py_result, idc_result)`
would report (the conversion itself lives in pywraps, outside this
translation unit, so its outcome is a parameter here), and `pyErrText`
the message `handle_python_error` extracts from the pending Python
exception. -/

structure RPResult where
  ok : Bool
  decref_result : Bool
  reported_error : Bool
  errbuf : String
deriving DecidableEq

def return_python_result (pyErrText : String) (py_result_null : Bool)
    (idc_result_present : Bool) (cvt : Int) : RPResult :=
  if py_result_null then
    { ok := false, decref_result := false, reported_error := true,
      errbuf := pyErrText }
  else
    let c : Int := if idc_result_present then cvt else CIP_OK
    { ok := decide (CIP_OK ≤ c),
      decref_result := decide (c ≠ CIP_OK_NODECREF),
      reported_error := false,
      errbuf := if c < CIP_OK then "ERROR: bad return value" else "" }

/-! ## Host values and the adapter environment

`idc_value_t` keeps only the tags the bridge branches on: `VT_STR2`
strings, numeric/absent scalars, and opaque object handles.  Embedded
objects are abstract identifiers (`Nat`); the Python-side behaviours that
live in pywraps or in the interpreter (bulk argument conversion, import,
attribute access, calling, converting a result back) are environment
fields, modelled from the spec where python.cpp only calls them. -/

inductive idc_value_t where
  | vempty : idc_value_t
  | vlong : Int → idc_value_t
  | vfloat : idc_value_t
  | vstr : String → idc_value_t
  | vobj : Nat → idc_value_t
deriving DecidableEq

/-- Modelled from the spec: the embedded interpreter and the pywraps
conversion layer, which are outside this translation unit.
`mainNS` is the `__main__` module dictionary; `modNS` is
`PyImport_ImportModule` (None when the import fails); `convertArgs` is
`pyw_convert_idc_args`' all-or-nothing bulk conversion, failing with an
error message; `convObj` is `idcvar_to_pyvar` on one host value
(outcome code and produced object); `getAttr` is `PyW_TryGetAttrString`;
`callable` is `PyCallable_Check`; `callFn` is
`PyEval_EvalCodeEx`/`PyObject_CallObject` (None when an exception
escapes); `pyToIdc` is `pyvar_to_idcvar` on a result object (outcome
code and produced host value); `clsName` is the `__class__.__name__`
string of an object; `mainMod` is the `__main__` module object as
returned by `PyW_TryImportModule`; `pyErrText` the text
`handle_python_error`/`PyW_GetError` would extract. -/
structure PyEnv where
  mainNS : List (String × Nat)
  modNS : String → Option (List (String × Nat))
  convertArgs : List idc_value_t → Except String (List Nat)
  convObj : idc_value_t → Int × Option Nat
  getAttr : Nat → String → Option Nat
  callable : Nat → Bool
  callFn : Nat → List Nat → Option Nat
  pyToIdc : Nat → Int × idc_value_t
  clsName : Nat → String
  mainMod : Option Nat
  pyErrText : String

/-- Outcome of one adapter call: the returned flag, the error buffer, and
the `__main__` namespace after the call (python.cpp itself never writes
to it in `IDAPython_extlang_run`). -/
structure CallResult where
  ok : Bool
  errbuf : String
  mainNS : List (String × Nat)
deriving DecidableEq

/-! ## IDAPython_extlang_run (python.cpp lines 663-727)

The translation returns `none` for the path the C code cannot survive:
when the name carries a module part and `PyImport_ImportModule` fails,
`PyModule_GetDict(NULL)` is reached (the `QASSERT(30157)` guard sits
after the dereference), which is not a defined result. -/

/-- A failed adapter call: `false` with `errbuf` set, `__main__` untouched.
The source writes the quoted name into some messages with `qsnprintf`;
the single-quote characters are dropped here. -/
def errResult (env : PyEnv) (msg : String) : CallResult :=
  { ok := false, errbuf := msg, mainNS := env.mainNS }

/-- The result object of the call, bridged back by `return_python_result`:
`pres` is what `PyEval_EvalCodeEx` / `PyObject_CallObject` returned
(`none` when an exception escaped). -/
def bridge_call_result (env : PyEnv) (pres : Option Nat) : CallResult :=
  let cvt : Int :=
    match pres with
    | none => CIP_OK
    | some r => (env.pyToIdc r).1
  let rpr := return_python_result env.pyErrText (pres = none) true cvt
  { ok := rpr.ok, errbuf := rpr.errbuf, mainNS := env.mainNS }

def IDAPython_extlang_run (env : PyEnv) (name : String)
    (args : List idc_value_t) : Option CallResult :=
  let modname : String := (parse_py_modnameS name "idaapi").1
  let funcname : String := (parse_py_modnameS name "idaapi").2.1
  let imported_module : Bool := (parse_py_modnameS name "idaapi").2.2
  match env.convertArgs args with
  | Except.error e => some (errResult env e)
  | Except.ok pargs =>
    match (if imported_module then env.modNS modname else some env.mainNS) with
    | none => none
    | some globals =>
      match globals.lookup funcname with
      | none => some (errResult env ("undefined function " ++ name))
      | some func => some (bridge_call_result env (env.callFn func pargs))

/-! ## IDAPython_extlang_call_method (python.cpp lines 1008-1070)

`attrLookups` counts `PyW_TryGetAttrString` uses on the target object and
`calls` counts `PyObject_CallObject` uses, so that the degenerate
branches' "never attempts attribute lookup / never calls" is visible in
the result. -/

structure CMResult where
  result : Option CallResult
  attrLookups : Nat
  calls : Nat
deriving DecidableEq

/-- The opening guards of the source,
`(idc_obj == NULL && method_name == NULL) || (idc_obj != NULL && method_name == NULL)`
(usage error) and `idc_obj == NULL && method_name != NULL` (behave like
`run()`), written as the four rows of the (object, name) presence table;
the remaining row is the genuine method call. -/
def IDAPython_extlang_call_method (env : PyEnv) (idc_obj : Option idc_value_t)
    (method_name : Option String) (args : List idc_value_t) : CMResult :=
  match idc_obj, method_name with
  | none, none =>
    { result := some (errResult env "call_method does not support this operation"),
      attrLookups := 0, calls := 0 }
  | some _, none =>
    { result := some (errResult env "call_method does not support this operation"),
      attrLookups := 0, calls := 0 }
  | none, some mname =>
    { result := IDAPython_extlang_run env mname args,
      attrLookups := 0, calls := 0 }
  | some obj, some mname =>
    match env.convObj obj with
    | (obj_cvt, py_obj) =>
      if obj_cvt < CIP_OK then
        { result := some (errResult env "Failed to convert input object to Python value"),
          attrLookups := 0, calls := 0 }
      else
        let oid : Nat := py_obj.getD 0
        match env.getAttr oid mname with
        | none =>
          { result := some (errResult env
              ("The input object does not have a callable method called " ++ mname)),
            attrLookups := 1, calls := 0 }
        | some py_method =>
          if env.callable py_method = false then
            { result := some (errResult env
                ("The input object does not have a callable method called " ++ mname)),
              attrLookups := 1, calls := 0 }
          else
            match env.convertArgs args with
            | Except.error e =>
              { result := some (errResult env e),
                attrLookups := 1, calls := 0 }
            | Except.ok pargs =>
              { result := some (bridge_call_result env (env.callFn py_method pargs)),
                attrLookups := 1, calls := 1 }

/-! ## IDAPython_extlang_get_attr (python.cpp lines 801-920)

Resolution of the target object: no `obj` means the `__main__` module
itself; a `VT_STR2` value is looked up as an attribute of `__main__`;
anything else goes through `idcvar_to_pyvar` and only an opaque
conversion (`CIP_OK_NODECREF`) is accepted.  An empty or NULL attribute
name is answered with the object's `__class__.__name__` string
(`clsName` is total: every CPython object carries `__class__` and every
class a string `__name__`).  The empty-name branch stores through the
`result` pointer without a NULL check, so `result_present = false` there
has no defined outcome (`none`). -/

def get_attr_resolve (env : PyEnv) (mainMod : Nat) (obj : Option idc_value_t) :
    Option Nat :=
  match obj with
  | none => some mainMod
  | some (idc_value_t.vstr s) => env.getAttr mainMod s
  | some v =>
    match env.convObj v with
    | (cvt, po) => if cvt = CIP_OK_NODECREF then po else none

def IDAPython_extlang_get_attr (env : PyEnv) (obj : Option idc_value_t)
    (attr : Option String) (result_present : Bool) :
    Option (Bool × Option idc_value_t) :=
  match env.mainMod with
  | none => some (false, none)
  | some mainMod =>
    match get_attr_resolve env mainMod obj with
    | none => some (false, none)
    | some py_obj =>
      if attr = none ∨ attr = some "" then
        if result_present then
          some (true, some (idc_value_t.vstr (env.clsName py_obj)))
        else
          none
      else
        match env.getAttr py_obj (attr.getD "") with
        | none => some (false, none)
        | some py_attr =>
          if result_present = false then
            some (true, none)
          else
            let cvt : Int := (env.pyToIdc py_attr).1
            if CIP_OK ≤ cvt then
              some (true, some (env.pyToIdc py_attr).2)
            else
              some (false, none)

/-! ## IDAPython_cli_execute_line (python.cpp lines 1101-1145)

`last_line_of` is `strrchr(line, '\n') + 1` (the whole line when there is
no newline); `qisspace` is C `isspace` in the default locale.  The output
records whether the function returned true, whether
`PythonEvalOrExec` ran, whether an execution window was opened
(`begin_execution`/`end_execution` bracket), and the text actually
executed after pseudo-command rewriting (`?x` to `help(x)`, `!x` to
`idaapi.IDAPython_ExecSystem(r...)`). -/

def qisspace (c : Char) : Bool :=
  c = ' ' || c = '\t' || c = '\n' || c = '\r' || c = Char.ofNat 11 || c = Char.ofNat 12

def last_line_of : List Char → List Char
  | [] => []
  | c :: cs =>
    if '\n' ∈ cs then last_line_of cs
    else if c = '\n' then cs
    else c :: cs

structure CliOut where
  ret : Bool
  executed : Bool
  window_opened : Bool
  exec_text : Option (List Char)
deriving DecidableEq

def IDAPython_cli_execute_line (line : List Char) : CliOut :=
  match line with
  | [] => { ret := true, executed := false, window_opened := false, exec_text := none }
  | c :: cs =>
    let ll := last_line_of (c :: cs)
    let more : Bool :=
      match ll with
      | [] => false
      | h :: t => decide ((h :: t).getLast? = some ':') || qisspace h
    if more then
      { ret := false, executed := false, window_opened := false, exec_text := none }
    else
      let rewritten : List Char :=
        if c = '?' then
          "help(".data ++ cs ++ ")".data
        else if c = '!' then
          "idaapi.IDAPython_ExecSystem(r".data ++ cs ++ ")".data
        else
          c :: cs
      { ret := true, executed := true, window_opened := true,
        exec_text := some rewritten }

/-! ## Helper lemmas on the execution-control step -/

theorem runChecks_nil (s : ExecState) : runChecks [] s = s := rfl

theorem runChecks_cons (p : Bool × Int) (l : List (Bool × Int)) (s : ExecState) :
    runChecks (p :: l) s = runChecks l (break_check p.1 p.2 s) := rfl

theorem break_check_box_true (c : Bool) (t : Int) (s : ExecState)
    (h : s.box_displayed = true) :
    (break_check c t s).box_displayed = true ∧ (break_check c t s).shows = s.shows := by
  unfold break_check
  rcases c with _ | _ <;> simp [h]

theorem break_check_shows_cases (c : Bool) (t : Int) (s : ExecState) :
    ((break_check c t s).shows = s.shows
      ∧ (break_check c t s).box_displayed = s.box_displayed)
    ∨ ((break_check c t s).shows = s.shows + 1
      ∧ (break_check c t s).box_displayed = true) := by
  unfold break_check show_wait_box
  split
  · left; exact ⟨rfl, rfl⟩
  · split
    · left; exact ⟨rfl, rfl⟩
    · split
      · split
        · right; exact ⟨rfl, rfl⟩
        · left; exact ⟨rfl, rfl⟩
      · left; exact ⟨rfl, rfl⟩

theorem break_check_step_aux (cancelled : Bool) (now : Int) (s : ExecState)
    (hc : cancelled = false) (hb : s.box_displayed = false) :
    break_check cancelled now s =
      if s.ninsns + 1 > 10 then
        if s.script_timeout ≠ 0 ∧ now - s.start_time > s.script_timeout then
          show_wait_box { s with ninsns := 0, box_displayed := true }
        else
          { s with ninsns := 0 }
      else
        { s with ninsns := s.ninsns + 1 } := by
  unfold break_check
  simp [hc, hb]

theorem runChecks_box_true (l : List (Bool × Int)) :
    ∀ s : ExecState, s.box_displayed = true →
      (runChecks l s).shows = s.shows ∧ (runChecks l s).box_displayed = true := by
  induction l with
  | nil => intro s h; exact ⟨rfl, h⟩
  | cons p l ih =>
    intro s h
    rw [runChecks_cons]
    have hb := break_check_box_true p.1 p.2 s h
    have hr := ih (break_check p.1 p.2 s) hb.1
    exact ⟨hr.1.trans hb.2, hr.2⟩

theorem runChecks_shows_le (l : List (Bool × Int)) :
    ∀ s : ExecState, s.box_displayed = false →
      (runChecks l s).shows ≤ s.shows + 1 := by
  induction l with
  | nil => intro s _; simp [runChecks_nil]
  | cons p l ih =>
    intro s h
    rw [runChecks_cons]
    rcases break_check_shows_cases p.1 p.2 s with ⟨h1, h2⟩ | ⟨h1, h2⟩
    · have := ih (break_check p.1 p.2 s) (h2.trans h)
      omega
    · have := runChecks_box_true l (break_check p.1 p.2 s) h2
      omega

/-! ## Claim C1 -/

/-- Claim C1: `return_python_result` decrements the result object's
reference count exactly when the conversion outcome is not
`CIP_OK_NODECREF`, returns true exactly when the outcome is at least
`CIP_OK`, and on a NULL result object reports the pending Python error,
returns false, and touches no reference count. -/
theorem return_python_result_contract (pyErrText : String) (cvt : Int) :
    ((return_python_result pyErrText true true cvt).ok = false
      ∧ (return_python_result pyErrText true true cvt).reported_error = true
      ∧ (return_python_result pyErrText true true cvt).decref_result = false
      ∧ (return_python_result pyErrText true true cvt).errbuf = pyErrText)
    ∧ ((return_python_result pyErrText false true cvt).decref_result = true
        ↔ cvt ≠ CIP_OK_NODECREF)
    ∧ ((return_python_result pyErrText false true cvt).ok = true ↔ CIP_OK ≤ cvt) := by
  unfold return_python_result
  simp

/-! ## Claim C2 -/

/-- Claim C2 (counterexample): starting inside an outer execution window
(hook installed, UI ready, timeout 2), a nested `begin_execution`
followed by the matching `end_execution` leaves the step hook
uninstalled — `end_execution` calls `PyEval_SetTrace(NULL, NULL)`
unconditionally, and no saved hook of the outer window is restored, so
the claim that the outer window's hook is installed again is false. -/
theorem nested_window_exit_uninstalls_hook :
    (end_execution (begin_execution 50
      { ninsns := 0, box_displayed := false, start_time := 0, script_timeout := 2,
        g_ui_ready := true, trace_installed := true, pending_interrupt := false,
        shows := 0, hides := 0 })).trace_installed = false := by
  decide

/-- Claim C2 (amended): `begin_execution` performs no save of the previous
hook; a nested entry (UI ready, nonzero timeout, hook already installed)
re-establishes the `break_check` hook idempotently, but the matching
inner `end_execution` uninstalls the hook unconditionally, leaving the
outer window without a hook rather than restoring it. -/
theorem nested_begin_reinstalls_inner_end_uninstalls (s : ExecState) (now : Int)
    (hui : s.g_ui_ready = true) (ht : s.script_timeout ≠ 0)
    (_houter : s.trace_installed = true) :
    (begin_execution now s).trace_installed = true
    ∧ (end_execution (begin_execution now s)).trace_installed = false := by
  unfold begin_execution end_execution reset_execution_time hide_script_waitbox hide_wait_box
  simp [hui, ht]

/-- Claim C2 (amended, witness): the amended statement at a concrete
outer-window state. -/
theorem nested_begin_reinstalls_inner_end_uninstalls_holds :
    (begin_execution 50
      { ninsns := 3, box_displayed := false, start_time := 0, script_timeout := 2,
        g_ui_ready := true, trace_installed := true, pending_interrupt := false,
        shows := 0, hides := 0 }).trace_installed = true
    ∧ (end_execution (begin_execution 50
      { ninsns := 3, box_displayed := false, start_time := 0, script_timeout := 2,
        g_ui_ready := true, trace_installed := true, pending_interrupt := false,
        shows := 0, hides := 0 })).trace_installed = false :=
  nested_begin_reinstalls_inner_end_uninstalls
    { ninsns := 3, box_displayed := false, start_time := 0, script_timeout := 2,
      g_ui_ready := true, trace_installed := true, pending_interrupt := false,
      shows := 0, hides := 0 }
    50 rfl (by decide) rfl

/-! ## Claim C3 -/

/-- Claim C3 (counterexample): with the wait box already displayed and no
user cancel pending, `break_check` does not increment the sample counter
(the C condition `!box_displayed && ++ninsns > 10` short-circuits before
the increment), contradicting the claim that every non-cancel invocation
increments it. -/
theorem break_check_skips_increment_when_box_shown :
    (break_check false 100
      { ninsns := 5, box_displayed := true, start_time := 0, script_timeout := 2,
        g_ui_ready := true, trace_installed := true, pending_interrupt := false,
        shows := 1, hides := 0 }).ninsns = 5
    ∧ ¬ ((break_check false 100
      { ninsns := 5, box_displayed := true, start_time := 0, script_timeout := 2,
        g_ui_ready := true, trace_installed := true, pending_interrupt := false,
        shows := 1, hides := 0 }).ninsns = 5 + 1) := by
  decide

/-- Claim C3 (amended): on every invocation of `break_check`: a pending
user cancel injects the interrupt and leaves the sample counter
untouched; otherwise, when the indicator is not already displayed, the
counter is incremented, resetting to zero once it exceeds 10, at which
point elapsed time is compared with the timeout and the indicator is
shown exactly when the timeout is nonzero and exceeded; when the
indicator is already displayed (and no cancel is pending) nothing
changes — in particular the counter is not incremented. -/
theorem break_check_step (cancelled : Bool) (now : Int) (s : ExecState) :
    ((break_check cancelled now s).pending_interrupt
      = (cancelled || s.pending_interrupt))
    ∧ ((break_check cancelled now s).ninsns =
        if cancelled = true ∨ s.box_displayed = true then s.ninsns
        else if s.ninsns + 1 > 10 then 0 else s.ninsns + 1)
    ∧ ((break_check cancelled now s).shows =
        if cancelled = false ∧ s.box_displayed = false ∧ s.ninsns + 1 > 10
            ∧ s.script_timeout ≠ 0 ∧ now - s.start_time > s.script_timeout
        then s.shows + 1 else s.shows)
    ∧ ((break_check cancelled now s).box_displayed = true ↔
        s.box_displayed = true ∨ (cancelled = false ∧ s.ninsns + 1 > 10
            ∧ s.script_timeout ≠ 0 ∧ now - s.start_time > s.script_timeout)) := by
  rcases cancelled with _ | _
  · rcases hb : s.box_displayed with _ | _
    · rw [break_check_step_aux false now s rfl hb]
      by_cases h10 : s.ninsns + 1 > 10
      · by_cases ht : s.script_timeout ≠ 0 ∧ now - s.start_time > s.script_timeout
        · simp [h10, ht, hb, show_wait_box]
        · simp [h10, ht, hb]
      · simp [h10, hb]
    · unfold break_check
      simp [hb]
  · unfold break_check
    simp

/-! ## Claim C4 -/

/-- Claim C4: within one execution window — `begin_execution`, then any
sequence of `break_check` invocations, then the matching
`end_execution` — the long-running indicator is shown at most once;
`end_execution` clears the flag, and hides the box exactly when it was
shown. -/
theorem waitbox_shown_at_most_once_per_window (s : ExecState) (now : Int)
    (l : List (Bool × Int)) (hui : s.g_ui_ready = true)
    (ht : s.script_timeout ≠ 0) :
    (runChecks l (begin_execution now s)).shows ≤ (begin_execution now s).shows + 1
    ∧ (end_execution (runChecks l (begin_execution now s))).box_displayed = false
    ∧ ((end_execution (runChecks l (begin_execution now s))).hides =
        if (runChecks l (begin_execution now s)).box_displayed then
          (runChecks l (begin_execution now s)).hides + 1
        else
          (runChecks l (begin_execution now s)).hides) := by
  have hbox : (begin_execution now s).box_displayed = false := by
    unfold begin_execution end_execution reset_execution_time hide_script_waitbox hide_wait_box
    simp [hui, ht]
    split <;> simp_all
  refine ⟨runChecks_shows_le l _ hbox, ?_, ?_⟩
  · unfold end_execution hide_script_waitbox hide_wait_box
    split <;> simp_all
  · unfold end_execution hide_script_waitbox hide_wait_box
    split <;> simp_all

/-- Claim C4 (witness): the window property at a concrete state, with a
hook-invocation sequence long enough to display the wait box once. -/
theorem waitbox_shown_at_most_once_per_window_holds :
    (runChecks (List.replicate 12 (false, 100)) (begin_execution 0
      { ninsns := 0, box_displayed := false, start_time := 7, script_timeout := 1,
        g_ui_ready := true, trace_installed := false, pending_interrupt := false,
        shows := 0, hides := 0 })).shows ≤
      (begin_execution 0
      { ninsns := 0, box_displayed := false, start_time := 7, script_timeout := 1,
        g_ui_ready := true, trace_installed := false, pending_interrupt := false,
        shows := 0, hides := 0 }).shows + 1
    ∧ (end_execution (runChecks (List.replicate 12 (false, 100)) (begin_execution 0
      { ninsns := 0, box_displayed := false, start_time := 7, script_timeout := 1,
        g_ui_ready := true, trace_installed := false, pending_interrupt := false,
        shows := 0, hides := 0 }))).box_displayed = false
    ∧ ((end_execution (runChecks (List.replicate 12 (false, 100)) (begin_execution 0
      { ninsns := 0, box_displayed := false, start_time := 7, script_timeout := 1,
        g_ui_ready := true, trace_installed := false, pending_interrupt := false,
        shows := 0, hides := 0 }))).hides =
        if (runChecks (List.replicate 12 (false, 100)) (begin_execution 0
      { ninsns := 0, box_displayed := false, start_time := 7, script_timeout := 1,
        g_ui_ready := true, trace_installed := false, pending_interrupt := false,
        shows := 0, hides := 0 })).box_displayed then
          (runChecks (List.replicate 12 (false, 100)) (begin_execution 0
      { ninsns := 0, box_displayed := false, start_time := 7, script_timeout := 1,
        g_ui_ready := true, trace_installed := false, pending_interrupt := false,
        shows := 0, hides := 0 })).hides + 1
        else
          (runChecks (List.replicate 12 (false, 100)) (begin_execution 0
      { ninsns := 0, box_displayed := false, start_time := 7, script_timeout := 1,
        g_ui_ready := true, trace_installed := false, pending_interrupt := false,
        shows := 0, hides := 0 })).hides) :=
  waitbox_shown_at_most_once_per_window
    { ninsns := 0, box_displayed := false, start_time := 7, script_timeout := 1,
      g_ui_ready := true, trace_installed := false, pending_interrupt := false,
      shows := 0, hides := 0 }
    0 (List.replicate 12 (false, 100)) rfl (by decide)

/-! ## Claim C5 -/

theorem split_at_first_dot_eq (l : List Char) :
    split_at_first_dot l =
      if '.' ∈ l then
        some (l.takeWhile (fun c => c ≠ '.'), (l.dropWhile (fun c => c ≠ '.')).tail)
      else
        none := by
  induction l with
  | nil => simp [split_at_first_dot]
  | cons c cs ih =>
    by_cases hc : c = '.'
    · subst hc
      simp [split_at_first_dot]
    · have hc2 : ¬('.' = c) := fun h => hc h.symm
      simp only [split_at_first_dot, hc, if_neg, ih]
      by_cases hm : '.' ∈ cs
      · simp [hm, hc, hc2, List.takeWhile_cons, List.dropWhile_cons]
      · simp [hm, hc, hc2]

/-- Claim C5: `parse_py_modname` splits at the first `'.'` only — module
is the text before the first dot, the leaf is everything after it
(later dots included), with no dot the module is the default and the
leaf the whole input, and the boolean reports whether a separator was
found: it agrees with the spec's `resolve` on every input. -/
theorem parse_py_modname_correct (full_name defmod : List Char) :
    parse_py_modname full_name defmod = resolve_spec full_name defmod := by
  unfold parse_py_modname resolve_spec
  rw [split_at_first_dot_eq]
  by_cases hd : '.' ∈ full_name <;> simp [hd]

/-! ## Claim C6 -/

/-- Claim C6: a `run()` call whose resolved leaf name is unbound in the
(successfully resolved) target namespace — the arguments having
converted — returns false with `undefined function <name>` in the error
buffer (the full requested name) and leaves the `__main__` namespace
unmodified. -/
theorem run_undefined_function (env : PyEnv) (name : String)
    (args : List idc_value_t) (pargs : List Nat) (ns : List (String × Nat))
    (hconv : env.convertArgs args = Except.ok pargs)
    (hns : (if (parse_py_modnameS name "idaapi").2.2 then
              env.modNS (parse_py_modnameS name "idaapi").1
            else some env.mainNS) = some ns)
    (hunbound : ns.lookup (parse_py_modnameS name "idaapi").2.1 = none) :
    IDAPython_extlang_run env name args =
      some { ok := false, errbuf := "undefined function " ++ name,
             mainNS := env.mainNS } := by
  unfold IDAPython_extlang_run errResult
  simp only [hconv, hns, hunbound]

/-- Claim C6 (witness): `run("undefinedName", [])` against a `__main__`
namespace that binds only `f`. -/
theorem run_undefined_function_holds :
    IDAPython_extlang_run
      { mainNS := [("f", 1)], modNS := fun _ => none,
        convertArgs := fun _ => Except.ok [],
        convObj := fun _ => (CIP_FAILED, none),
        getAttr := fun _ _ => none, callable := fun _ => false,
        callFn := fun _ _ => none,
        pyToIdc := fun _ => (CIP_FAILED, idc_value_t.vempty),
        clsName := fun _ => "", mainMod := none, pyErrText := "" }
      "undefinedName" [] =
      some { ok := false, errbuf := "undefined function undefinedName",
             mainNS := [("f", 1)] } :=
  run_undefined_function
    { mainNS := [("f", 1)], modNS := fun _ => none,
      convertArgs := fun _ => Except.ok [],
      convObj := fun _ => (CIP_FAILED, none),
      getAttr := fun _ _ => none, callable := fun _ => false,
      callFn := fun _ _ => none,
      pyToIdc := fun _ => (CIP_FAILED, idc_value_t.vempty),
      clsName := fun _ => "", mainMod := none, pyErrText := "" }
    "undefinedName" [] [] [("f", 1)] rfl (by decide) (by decide)

/-! ## Claim C7 -/

/-- Claim C7: `call_method` with neither object nor method name is a
usage error — false with the usage message, no attribute lookup, no
call, `__main__` untouched; with no object but a method name present it
returns exactly `IDAPython_extlang_run` on that name and the same
arguments, again with no attribute lookup on the absent object. -/
theorem call_method_degenerate (env : PyEnv) (mname : String)
    (args : List idc_value_t) :
    IDAPython_extlang_call_method env none none args =
      { result := some (errResult env "call_method does not support this operation"),
        attrLookups := 0, calls := 0 }
    ∧ IDAPython_extlang_call_method env none (some mname) args =
      { result := IDAPython_extlang_run env mname args,
        attrLookups := 0, calls := 0 } :=
  ⟨rfl, rfl⟩

/-! ## Claim C8 -/

/-- Claim C8: `get_attr` with a NULL or empty attribute name on any
resolved target object answers with the object's runtime class name
(`obj.__class__.__name__`) as a string and returns true, instead of an
attribute lookup. -/
theorem get_attr_empty_name_returns_class_name (env : PyEnv)
    (obj : Option idc_value_t) (attr : Option String) (mainMod oid : Nat)
    (hmm : env.mainMod = some mainMod)
    (hres : get_attr_resolve env mainMod obj = some oid)
    (hattr : attr = none ∨ attr = some "") :
    IDAPython_extlang_get_attr env obj attr true =
      some (true, some (idc_value_t.vstr (env.clsName oid))) := by
  unfold IDAPython_extlang_get_attr
  simp only [hmm, hres]
  rcases hattr with h | h <;> subst h <;> simp

/-- Claim C8 (witness): the empty-name request against the `__main__`
module object itself. -/
theorem get_attr_empty_name_returns_class_name_holds :
    IDAPython_extlang_get_attr
      { mainNS := [], modNS := fun _ => none,
        convertArgs := fun _ => Except.ok [],
        convObj := fun _ => (CIP_FAILED, none),
        getAttr := fun _ _ => none, callable := fun _ => false,
        callFn := fun _ _ => none,
        pyToIdc := fun _ => (CIP_FAILED, idc_value_t.vempty),
        clsName := fun _ => "module", mainMod := some 0, pyErrText := "" }
      none none true =
      some (true, some (idc_value_t.vstr "module")) :=
  get_attr_empty_name_returns_class_name
    { mainNS := [], modNS := fun _ => none,
      convertArgs := fun _ => Except.ok [],
      convObj := fun _ => (CIP_FAILED, none),
      getAttr := fun _ _ => none, callable := fun _ => false,
      callFn := fun _ _ => none,
      pyToIdc := fun _ => (CIP_FAILED, idc_value_t.vempty),
      clsName := fun _ => "module", mainMod := some 0, pyErrText := "" }
    none none 0 0 rfl rfl (Or.inl rfl)

/-! ## Claim C9 -/

/-- Claim C9: for every non-empty interactive input line,
`IDAPython_cli_execute_line` returns false (more input needed) exactly
when the last line of the input is non-empty and either ends with a
colon or begins with a whitespace character; otherwise the line is
executed and true is returned. -/
theorem cli_execute_line_heuristic (line : List Char) (hne : line ≠ []) :
    ((IDAPython_cli_execute_line line).ret = false ↔
      (last_line_of line ≠ []
        ∧ ((last_line_of line).getLast? = some ':'
            ∨ qisspace ((last_line_of line).headD ' ') = true)))
    ∧ ((IDAPython_cli_execute_line line).ret = true →
        (IDAPython_cli_execute_line line).executed = true) := by
  match line, hne with
  | c :: cs, _ =>
    unfold IDAPython_cli_execute_line
    cases hll : last_line_of (c :: cs) with
    | nil => simp [hll]
    | cons h t =>
      by_cases hcolon : (h :: t).getLast? = some ':'
      · simp [hll, hcolon]
      · by_cases hsp : qisspace h = true
        · simp [hll, hcolon, hsp]
        · simp [hll, hcolon, hsp]

/-- Claim C9 (witness): `"if x:"` is reported incomplete, through the
heuristic theorem applied at that input. -/
theorem cli_execute_line_heuristic_holds :
    "if x:".data ≠ ([] : List Char)
    ∧ (IDAPython_cli_execute_line "if x:".data).ret = false :=
  ⟨by decide,
   (cli_execute_line_heuristic "if x:".data (by decide)).1.mpr (by decide)⟩

/-! ## Claim C10 -/

/-- Claim C10: `IDAPython_cli_execute_line` on the empty string returns
true immediately: nothing is executed, no execution window is opened,
and no pseudo-command rewriting takes place. -/
theorem cli_execute_line_empty :
    IDAPython_cli_execute_line [] =
      { ret := true, executed := false, window_opened := false, exec_text := none } :=
  rfl

end IDAPython
